import Mathlib

/-!
Verification of the gyogaido asset-preparation scripts.

The definitions below are a shallow embedding of the pure logic of
`scripts/fish_data_extractor.py` and `scripts/fix_and_resize_images.py`:
network responses, rendering outcomes and file contents are passed in as
explicit data, and file-system writes become values returned by the
embedded functions.
-/

namespace GyoGaiDo

/-! ## Fallback acquisition pipeline (fish_data_extractor.py) -/

/-- The `targets` dict of `create_missing_placeholders`: each image
category with its target acquisition count (natural 2, scientific 1,
maps 1, sushi 2). -/
def categoryTargets : List (String × Nat) :=
  [("natural", 2), ("scientific", 1), ("maps", 1), ("sushi", 2)]

/-- Sequence indices of the files rendered by the loop
`for i in range(count)` of `create_type_specific_placeholders`:
filenames are numbered `start_index + i`. -/
def placeholderIndices (start count : Nat) : List Nat :=
  (List.range count).map (fun i => start + i)

/-- One category of `create_missing_placeholders`:
`missing = target_count - downloaded` (a Python int, possibly negative),
and placeholders numbered from `downloaded` are generated only when
`missing > 0`. Returns the sequence indices handed to the generator. -/
def create_missing_placeholders (target downloaded : Nat) : List Nat :=
  let missing : Int := (target : Int) - (downloaded : Int)
  if 0 < missing then placeholderIndices downloaded missing.toNat else []

/-- The accumulator loop of `download_natural_images` (and its three
sibling functions): `images_downloaded` starts at `acc`, the loop breaks
as soon as it reaches `target_count`, and otherwise adds the count
returned by each source in order. `ks` lists each source call result. -/
def runSources (target : Nat) : Nat → List Nat → Nat
  | acc, [] => acc
  | acc, k :: rest => if target ≤ acc then acc else runSources target (acc + k) rest

/-- The set of file sequence indices written by the sources actually
executed by the loop: a source that reports `k` saved files has written
filenames numbered by its own local counter `0, 1, ..., k - 1`
(every adapter in the script starts `images_downloaded` at 0). -/
def sourceFiles (target : Nat) : Nat → List Nat → Finset Nat
  | _, [] => ∅
  | acc, k :: rest =>
    if target ≤ acc then ∅ else Finset.range k ∪ sourceFiles target (acc + k) rest

/-- All distinct file indices present for one category after the download
loop and the placeholder backfill of `create_missing_placeholders`. -/
def savedFiles (target : Nat) (ks : List Nat) : Finset Nat :=
  sourceFiles target 0 ks ∪
    (create_missing_placeholders target (runSources target 0 ks)).toFinset

/-- A source call that either returns a saved-image count or raises. -/
def sourceResultCount : Except Unit Nat → Nat
  | .ok k => k
  | .error _ => 0

/-- The same accumulator loop with the `try/except` of
`download_natural_images`: a source that raises is caught, skipped, and
iteration continues with the next source. -/
def runSourcesExc (target : Nat) : Nat → List (Except Unit Nat) → Nat
  | acc, [] => acc
  | acc, .ok k :: rest =>
    if target ≤ acc then acc else runSourcesExc target (acc + k) rest
  | acc, .error _ :: rest =>
    if target ≤ acc then acc else runSourcesExc target acc rest

/-- The per-entity loop of `run_extraction`: each entity extraction either
yields a record or raises; a raising entity is logged and omitted while
the loop continues with the remaining entities. -/
def run_extraction {α : Type} (results : List (Except Unit α)) : List α :=
  results.filterMap fun r =>
    match r with
    | .ok a => some a
    | .error _ => none

/-! ## Placeholder generator (fish_data_extractor.py) -/

/-- How the PIL-based rendering body of `create_type_specific_placeholders`
plays out: the `from PIL import ...` either raises `ImportError`, or PIL is
available and the render loop either completes or raises a generic
exception at iteration `failAt` (caught by the outer `except Exception`,
which only logs). -/
inductive RenderOutcome
  | importError
  | available (failAt : Option Nat)

/-- The hardcoded minimal valid JPEG byte stream of
`create_basic_type_placeholders`. -/
def minimal_jpeg : List Nat :=
  [0xFF, 0xD8, 0xFF, 0xE0, 0x00, 0x10, 0x4A, 0x46, 0x49, 0x46, 0x00, 0x01,
   0x01, 0x01, 0x00, 0x48, 0x00, 0x48, 0x00, 0x00, 0xFF, 0xDB, 0x00, 0x43,
   0x00, 0x08, 0x06, 0x06, 0x07, 0x06, 0x05, 0x08, 0x07, 0x07, 0x07, 0x09,
   0x09, 0x08, 0x0A, 0x0C, 0x14, 0x0D, 0x0C, 0x0B, 0x0B, 0x0C, 0x19, 0x12,
   0x13, 0x0F, 0x14, 0x1D, 0x1A, 0x1F, 0x1E, 0x1D, 0x1A, 0x1C, 0x1C, 0x20,
   0x24, 0x2E, 0x27, 0x20, 0x22, 0x2C, 0x23, 0x1C, 0x1C, 0x28, 0x37, 0x29,
   0x2C, 0x30, 0x31, 0x34, 0x34, 0x34, 0x1F, 0x27, 0x39, 0x3D, 0x38, 0x32,
   0x3C, 0x2E, 0x33, 0x34, 0x32, 0xFF, 0xC0, 0x00, 0x11, 0x08, 0x00, 0x64,
   0x00, 0x64, 0x03, 0x01, 0x22, 0x00, 0x02, 0x11, 0x01, 0x03, 0x11, 0x01,
   0xFF, 0xC4, 0x00, 0x14, 0x00, 0x01, 0x00, 0x00, 0x00, 0x00, 0x00, 0x00,
   0x00, 0x00, 0x00, 0x00, 0x00, 0x00, 0x00, 0x00, 0x00, 0x08, 0xFF, 0xC4,
   0x00, 0x14, 0x10, 0x01, 0x00, 0x00, 0x00, 0x00, 0x00, 0x00, 0x00, 0x00,
   0x00, 0x00, 0x00, 0x00, 0x00, 0x00, 0x00, 0x00, 0xFF, 0xDA, 0x00, 0x0C,
   0x03, 0x01, 0x00, 0x02, 0x11, 0x03, 0x11, 0x00, 0x3F, 0x00, 0x9F, 0xFF, 0xD9]

/-- `create_basic_type_placeholders`: writes the fixed `minimal_jpeg`
bytes at every requested sequence index (no rendering involved).
Returns the list of written files as pairs of index and content. -/
def create_basic_type_placeholders (start count : Nat) : List (Nat × List Nat) :=
  (List.range count).map fun i => (start + i, minimal_jpeg)

/-- `create_type_specific_placeholders`, with the bytes PIL would encode
for the placeholder at index `i` abstracted as `pilImage i`. On
`ImportError` it falls back to `create_basic_type_placeholders`; when PIL
is available it renders one file per iteration, and a generic exception at
iteration `failAt` aborts the loop after the first `failAt` files (the
outer `except Exception` only prints). -/
def create_type_specific_placeholders (pilImage : Nat → List Nat) :
    RenderOutcome → Nat → Nat → List (Nat × List Nat)
  | .importError, start, count => create_basic_type_placeholders start count
  | .available none, start, count =>
    (List.range count).map fun i => (start + i, pilImage (start + i))
  | .available (some j), start, count =>
    (List.range (min j count)).map fun i => (start + i, pilImage (start + i))

/-! ## Entity ids and descriptions (fish_data_extractor.py) -/

/-- `generate_fish_id`: lowercase the common name and replace every space
and hyphen with an underscore. Python lowercases and replaces
single-character substrings, which is exactly a character-wise map. -/
def generate_fish_id (common_name : String) : String :=
  String.mk (common_name.toList.map fun c =>
    let lc := c.toLower
    if lc = ' ' then '_' else if lc = '-' then '_' else lc)

/-- The `common_name` fields of the fixed 20-species list returned by
`get_top_20_fish_species`. -/
def get_top_20_fish_species : List String :=
  ["Bluefin Tuna", "Yellowfin Tuna", "Atlantic Salmon", "Japanese Amberjack",
   "Red Sea Bream", "Atlantic Mackerel", "Horse Mackerel", "Japanese Sardine",
   "Japanese Sea Bass", "Olive Flounder", "Red Snapper", "Japanese Eel",
   "Conger Eel", "Japanese Flying Squid", "Giant Pacific Octopus",
   "Kuruma Prawn", "Japanese Scallop", "Sea Urchin", "Greater Amberjack",
   "Pacific Saury"]

/-- The truncation step returning `build_description`: the first chosen
description is returned unchanged when its length is at most 200
characters, otherwise its first 200 characters followed by `...`.
Python strings are embedded as lists of characters. -/
def truncate_description (s : List Char) : List Char :=
  if s.length > 200 then s.take 200 ++ ("...".toList) else s

/-- The `fallback_descriptions` static table of `build_description`. -/
def fallback_descriptions : List (String × String) :=
  [("Bluefin Tuna",
    "Large, powerful fish prized for its rich, fatty flesh. Highly valued in sushi cuisine for its complex flavor profile ranging from lean akami to fatty otoro."),
   ("Atlantic Salmon",
    "Popular fish with distinctive pink flesh. Commonly farm-raised and wild-caught, known for its rich flavor and high omega-3 content."),
   ("Japanese Amberjack",
    "Premium fish with buttery texture and clean taste. Young yellowtail (hamachi) is especially prized for sushi and sashimi.")]

/-- The generic template string appended when no other description is
found. -/
def generic_description : String :=
  "A species of fish commonly used in Japanese cuisine, particularly sushi and sashimi preparation."

/-- `build_description`: the Wikipedia extract is appended first, then the
FishBase `Comments` field; the first element of the resulting list is
truncated and returned, falling back to the static table and then to the
generic template when both sources yielded nothing. `none` stands for a
missing source result or a source dict without the relevant key. -/
def build_description (common_name : String)
    (fishbase_comments wikipedia_extract : Option String) : List Char :=
  let descriptions : List String :=
    (match wikipedia_extract with | some e => [e] | none => []) ++
      (match fishbase_comments with | some c => [c] | none => [])
  match descriptions with
  | d :: _ => truncate_description d.toList
  | [] =>
    match fallback_descriptions.lookup common_name with
    | some d => truncate_description d.toList
    | none => truncate_description generic_description.toList

/-! ## Image download (fish_data_extractor.py) -/

/-- The Python substring test `needle in hay` on strings. -/
def isSubstring (needle : List Char) : List Char → Bool
  | [] => needle.isEmpty
  | c :: rest => needle.isPrefixOf (c :: rest) || isSubstring needle rest

/-- An HTTP response as seen by `download_image_from_url`: a status code,
the declared `content-type` header, and the streamed body chunks, each of
which is delivered or raises mid-stream. -/
structure HttpResponse where
  status : Nat
  content_type : String
  chunks : List (Except Unit (List Nat))

/-- The chunk-writing loop of `download_image_from_url`: chunks are
appended to the open file until one raises; the first component tells
whether all chunks were written, the second the bytes persisted at the
target path. -/
def writeChunks : List (Except Unit (List Nat)) → List Nat → Bool × List Nat
  | [], acc => (true, acc)
  | .ok c :: rest, acc => writeChunks rest (acc ++ c)
  | .error _ :: _, acc => (false, acc)

/-- `download_image_from_url`: the request either raises
(`Except.error`) or yields a response; bytes are only written once the
status is 200 and the content type contains `image`. Returns the boolean
result together with the file contents at the target path (`none` when no
file was created). -/
def download_image_from_url (resp : Except Unit HttpResponse) :
    Bool × Option (List Nat) :=
  match resp with
  | .error _ => (false, none)
  | .ok r =>
    if r.status = 200 then
      if isSubstring ("image".toList) r.content_type.toList then
        ((writeChunks r.chunks []).1, some (writeChunks r.chunks []).2)
      else (false, none)
    else (false, none)

/-! ## Resize and fix (fix_and_resize_images.py) -/

/-- PIL image modes distinguished by `resize_all_images`. -/
inductive ImgMode
  | RGB
  | RGBA
  | P
  | other
deriving DecidableEq

/-- One image file on disk: either `Image.open` raises on it, or it has
dimensions, a mode, and (abstracted) pixel data. -/
inductive ImgFile
  | corrupt
  | img (width height : Nat) (mode : ImgMode) (data : Nat)
deriving DecidableEq

/-- `self.target_size` of `ImageFixerResizer`. -/
def target_size : Nat × Nat := (400, 300)

/-- The per-file body of `resize_all_images`, with the JPEG bytes produced
by convert-resize-save abstracted as `enc`: a file that fails to open is
caught and skipped; a file whose size differs from `target_size` is
re-encoded at 400x300 in RGB; a file already at `target_size` is left
untouched. -/
def resizeFile (enc : ImgMode → Nat → Nat) : ImgFile → ImgFile
  | .corrupt => .corrupt
  | .img w h m d =>
    if (w, h) ≠ target_size then .img target_size.1 target_size.2 .RGB (enc m d)
    else .img w h m d

/-- `resize_all_images` over the files of the four category folders. -/
def resize_all_images (enc : ImgMode → Nat → Nat) (files : List ImgFile) :
    List ImgFile :=
  files.map (resizeFile enc)

/-- The hardcoded `self.broken_images` list of `ImageFixerResizer`. -/
def broken_images : List String :=
  ["natural/red_snapper_natural_2.jpg",
   "scientific/atlantic_mackerel_diagram.jpg",
   "scientific/bluefin_tuna_diagram.jpg",
   "scientific/yellowfin_tuna_diagram.jpg",
   "maps/atlantic_salmon_habitat.jpg",
   "maps/horse_mackerel_habitat.jpg"]

/-- The synthetic placeholder that `fix_broken_images` renders for a
listed path: category-styled pixel data `ph p`, at `target_size`, saved
as an RGB JPEG. -/
def placeholderFor (ph : String → Nat) (p : String) : ImgFile :=
  .img target_size.1 target_size.2 .RGB (ph p)

/-- `fix_broken_images` as a file-system transformer: it regenerates a
placeholder at every path of `broken_images`, unconditionally. -/
def fix_broken_images (ph : String → Nat) (fs : String → ImgFile) :
    String → ImgFile :=
  fun p => if p ∈ broken_images then placeholderFor ph p else fs p

/-- `download_better_replacement_images`: for each listed broken path it
attempts a Wikimedia download (`dl p`), overwriting the path on success
and leaving it alone otherwise. -/
def download_better_replacement_images (dl : String → Option ImgFile)
    (fs : String → ImgFile) : String → ImgFile :=
  fun p =>
    if p ∈ broken_images then
      match dl p with
      | some replacement => replacement
      | none => fs p
    else fs p

/-- `run_fix_and_resize`: download replacements, then fix broken images,
then resize everything, in that order. -/
def run_fix_and_resize (enc : ImgMode → Nat → Nat) (ph : String → Nat)
    (dl : String → Option ImgFile) (fs : String → ImgFile) :
    String → ImgFile :=
  fun p => resizeFile enc (fix_broken_images ph (download_better_replacement_images dl fs) p)

/-! ## Helper lemmas -/

theorem runSources_all_zero (target acc : Nat) (ks : List Nat)
    (h : ∀ k ∈ ks, k = 0) : runSources target acc ks = acc := by
  induction ks generalizing acc with
  | nil => rfl
  | cons k rest ih =>
    have hk : k = 0 := h k (by simp)
    have hr : ∀ x ∈ rest, x = 0 := fun x hx => h x (by simp [hx])
    rw [runSources]
    split
    · rfl
    · rw [hk, Nat.add_zero, ih acc hr]

theorem sourceFiles_all_zero (target acc : Nat) (ks : List Nat)
    (h : ∀ k ∈ ks, k = 0) : sourceFiles target acc ks = ∅ := by
  induction ks generalizing acc with
  | nil => rfl
  | cons k rest ih =>
    have hk : k = 0 := h k (by simp)
    have hr : ∀ x ∈ rest, x = 0 := fun x hx => h x (by simp [hx])
    rw [sourceFiles]
    split
    · rfl
    · rw [hk, Finset.range_zero, Nat.add_zero, ih acc hr, Finset.empty_union]

theorem placeholderIndices_toFinset (s c : Nat) :
    (placeholderIndices s c).toFinset = Finset.Ico s (s + c) := by
  ext x
  simp only [placeholderIndices, List.mem_toFinset, List.mem_map, List.mem_range,
    Finset.mem_Ico]
  constructor
  · rintro ⟨i, hi, rfl⟩
    omega
  · intro hx
    exact ⟨x - s, by omega, by omega⟩

theorem create_missing_placeholders_of_lt (target downloaded : Nat)
    (h : downloaded < target) :
    create_missing_placeholders target downloaded =
      placeholderIndices downloaded (target - downloaded) := by
  rw [create_missing_placeholders]
  rw [if_pos (by omega : (0 : Int) < (target : Int) - (downloaded : Int))]
  rw [show ((target : Int) - (downloaded : Int)).toNat = target - downloaded by omega]

theorem create_missing_placeholders_of_le (target downloaded : Nat)
    (h : target ≤ downloaded) :
    create_missing_placeholders target downloaded = [] := by
  rw [create_missing_placeholders]
  rw [if_neg (by omega : ¬ (0 : Int) < (target : Int) - (downloaded : Int))]

theorem savedFiles_single_source (target k : Nat) (rest : List Nat)
    (hk : k ≤ target) (hrest : ∀ x ∈ rest, x = 0) :
    savedFiles target (k :: rest) = Finset.range target := by
  rcases Nat.eq_zero_or_pos target with ht | ht
  · subst ht
    rw [savedFiles, sourceFiles, runSources]
    rw [if_pos (Nat.zero_le 0), if_pos (Nat.zero_le 0)]
    rw [create_missing_placeholders_of_le 0 0 le_rfl]
    simp
  · rw [savedFiles, sourceFiles, runSources]
    rw [if_neg (by omega : ¬ target ≤ 0), if_neg (by omega : ¬ target ≤ 0)]
    rw [sourceFiles_all_zero target (0 + k) rest hrest,
      runSources_all_zero target (0 + k) rest hrest, Finset.union_empty,
      Nat.zero_add]
    rcases Nat.lt_or_ge k target with hlt | hge
    · rw [create_missing_placeholders_of_lt target k hlt,
        placeholderIndices_toFinset]
      rw [show k + (target - k) = target by omega]
      rw [Finset.range_eq_Ico]
      exact Finset.Ico_union_Ico_eq_Ico (Nat.zero_le k) (Nat.le_of_lt hlt)
    · have hk2 : k = target := le_antisymm hk hge
      rw [hk2, create_missing_placeholders_of_le target target le_rfl]
      simp

/-! ## Claim theorems -/

/-- C1, counterexample: it is not the case that the final number of
distinct saved files always equals the category target for every
combination of per-adapter success counts. With the natural target of 2,
two sources that each save one image reuse local sequence index 0, so the
accumulated count reaches 2, no placeholder is created, and only one
distinct file exists. -/
theorem c1_counterexample :
    ¬ ∀ cat target, (cat, target) ∈ categoryTargets →
        ∀ ks : List Nat, (∀ k ∈ ks, k ≤ target) →
          (savedFiles target ks).card = target := by
  intro h
  have h2 := h "natural" 2 (by decide) [1, 1, 0, 0] (by decide)
  have h3 : (savedFiles 2 [1, 1, 0, 0]).card = 1 := by decide
  omega

/-- C1, amended: for every image category and its configured target count
(natural 2, scientific 1, maps 1, sushi 2), the number of distinct saved
files after the download loop and the placeholder backfill equals exactly
the target, provided at most one source adapter returns a nonzero success
count (each adapter saving at most the category target, as every source
in the script enforces). When two or more adapters return nonzero counts
their filenames collide, since each numbers its files from local index 0,
and the final count can fall below the target. -/
theorem c1_final_count_equals_target (cat : String) (target : Nat)
    (_hcat : (cat, target) ∈ categoryTargets) (ks : List Nat)
    (hle : ∀ k ∈ ks, k ≤ target)
    (hone : ks.Pairwise (fun a b => a = 0 ∨ b = 0)) :
    (savedFiles target ks).card = target := by
  induction ks with
  | nil =>
    rw [savedFiles, sourceFiles, runSources]
    rcases Nat.eq_zero_or_pos target with ht | ht
    · subst ht
      rw [create_missing_placeholders_of_le 0 0 le_rfl]
      simp
    · rw [create_missing_placeholders_of_lt target 0 ht,
        placeholderIndices_toFinset, Finset.empty_union, Nat.card_Ico]
      omega
  | cons k rest ih =>
    have hkle : k ≤ target := hle k (by simp)
    have hrle : ∀ x ∈ rest, x ≤ target := fun x hx => hle x (by simp [hx])
    have hpair := (List.pairwise_cons.mp hone)
    rcases Nat.eq_zero_or_pos k with hk0 | hkpos
    · subst hk0
      rcases Nat.eq_zero_or_pos target with ht | ht
      · subst ht
        rw [savedFiles, sourceFiles, runSources]
        rw [if_pos (Nat.zero_le 0), if_pos (Nat.zero_le 0)]
        rw [create_missing_placeholders_of_le 0 0 le_rfl]
        simp
      · have heq : savedFiles target (0 :: rest) = savedFiles target rest := by
          rw [savedFiles, savedFiles, sourceFiles, runSources]
          rw [if_neg (by omega : ¬ target ≤ 0), if_neg (by omega : ¬ target ≤ 0)]
          rw [Finset.range_zero, Nat.add_zero, Finset.empty_union]
        rw [heq]
        exact ih hrle hpair.2
    · have hrest0 : ∀ x ∈ rest, x = 0 := by
        intro x hx
        rcases hpair.1 x hx with hk | hx0
        · omega
        · exact hx0
      rw [savedFiles_single_source target k rest hkle hrest0]
      exact Finset.card_range target

/-- C1 witness for the amended theorem: with the natural category
(target 2) and all four sources returning zero, exactly two files exist. -/
theorem c1_final_count_equals_target_witness :
    (savedFiles 2 [0, 0, 0, 0]).card = 2 :=
  c1_final_count_equals_target "natural" 2 (by decide) [0, 0, 0, 0]
    (by decide) (by decide)

/-- C2: for every image category, when every source adapter returns zero
successes the accumulated count is zero, the placeholder generator is
handed start index 0 and count equal to the target (so it renders exactly
the sequence indices 0 through target minus 1), and in general a shortfall
of `target - downloaded` is filled with indices continuing from the
accumulated count. -/
theorem c2_all_adapters_zero (cat : String) (target : Nat)
    (_hcat : (cat, target) ∈ categoryTargets) (ks : List Nat)
    (hz : ∀ k ∈ ks, k = 0) :
    runSources target 0 ks = 0 ∧
    create_missing_placeholders target (runSources target 0 ks) =
      placeholderIndices 0 target ∧
    placeholderIndices 0 target = List.range target ∧
    (∀ downloaded, downloaded < target →
      create_missing_placeholders target downloaded =
        placeholderIndices downloaded (target - downloaded)) := by
  have h0 : runSources target 0 ks = 0 := runSources_all_zero target 0 ks hz
  refine ⟨h0, ?_, ?_, fun d hd => create_missing_placeholders_of_lt target d hd⟩
  · rw [h0]
    rcases Nat.eq_zero_or_pos target with ht | ht
    · rw [ht]
      rw [create_missing_placeholders_of_le 0 0 le_rfl]
      rfl
    · rw [create_missing_placeholders_of_lt target 0 ht, Nat.sub_zero]
  · simp [placeholderIndices]

/-- C2 witness: the sushi category (target 2) with three sources all
returning zero yields placeholder indices 0 and 1. -/
theorem c2_all_adapters_zero_witness :
    create_missing_placeholders 2 (runSources 2 0 [0, 0, 0]) =
      placeholderIndices 0 2 :=
  (c2_all_adapters_zero "sushi" 2 (by decide) [0, 0, 0] (by decide)).2.1

/-- C3: a source adapter that raises is treated identically to one that
returns zero images, and the loop continues with the next adapter: the
accumulated count of the loop with exceptions equals the plain loop run
on the counts in which every raising adapter contributes zero. Moreover
an entity whose extraction raises is omitted from the final collection
while the remaining entities are still processed. -/
theorem c3_failures_never_abort :
    (∀ (target acc : Nat) (rs : List (Except Unit Nat)),
        runSourcesExc target acc rs =
          runSources target acc (rs.map sourceResultCount)) ∧
    (∀ (α : Type) (xs ys : List (Except Unit α)),
        run_extraction (xs ++ Except.error () :: ys) =
          run_extraction xs ++ run_extraction ys) := by
  constructor
  · intro target acc rs
    induction rs generalizing acc with
    | nil => rfl
    | cons r rest ih =>
      cases r with
      | ok k =>
        by_cases hc : target ≤ acc <;>
          simp [runSourcesExc, runSources, sourceResultCount, hc, ih]
      | error e =>
        by_cases hc : target ≤ acc <;>
          simp [runSourcesExc, runSources, sourceResultCount, hc, ih]
  · intro α xs ys
    simp [run_extraction]

/-- C4, counterexample: it is not the case that every requested
placeholder path exists after `create_type_specific_placeholders`
returns. When PIL is importable but rendering raises a generic exception
at the first iteration, the outer `except Exception` only prints, the
basic fallback is not invoked, and the requested file is missing. -/
theorem c4_counterexample :
    ¬ ∀ (pilImage : Nat → List Nat) (r : RenderOutcome) (start count i : Nat),
        i < count →
        (start + i) ∈
          (create_type_specific_placeholders pilImage r start count).map
            Prod.fst := by
  intro h
  have h2 := h (fun _ => []) (.available (some 0)) 0 1 0 (by decide)
  simp [create_type_specific_placeholders] at h2

/-- C4, amended: every requested placeholder path exists after the call
when the advanced image library is unavailable (every index is written
with the hardcoded minimal fixed-byte JPEG) or when rendering completes
without raising; only a generic rendering exception, which the function
merely logs, can leave requested paths missing. -/
theorem c4_placeholder_paths_exist (pilImage : Nat → List Nat)
    (r : RenderOutcome) (start count i : Nat) (hi : i < count)
    (hr : r = RenderOutcome.importError ∨
      r = RenderOutcome.available none) :
    (start + i) ∈
      (create_type_specific_placeholders pilImage r start count).map
        Prod.fst ∧
    create_type_specific_placeholders pilImage RenderOutcome.importError
        start count =
      (List.range count).map (fun j => (start + j, minimal_jpeg)) := by
  refine ⟨?_, rfl⟩
  rcases hr with hr | hr <;> rw [hr] <;>
    simp only [create_type_specific_placeholders,
      create_basic_type_placeholders, List.map_map, List.mem_map,
      List.mem_range, Function.comp] <;>
    exact ⟨i, hi, rfl⟩

/-- C4 witness: one placeholder requested at index 0 with PIL missing is
present, with the fixed JPEG bytes. -/
theorem c4_placeholder_paths_exist_witness :
    (0 + 0) ∈
      (create_type_specific_placeholders (fun _ => [])
        RenderOutcome.importError 0 1).map Prod.fst ∧
    create_type_specific_placeholders (fun _ => [])
        RenderOutcome.importError 0 1 =
      (List.range 1).map (fun j => (0 + j, minimal_jpeg)) :=
  c4_placeholder_paths_exist (fun _ => []) RenderOutcome.importError 0 1 0
    (by decide) (Or.inl rfl)

/-- C5: entity id generation is a pure character-wise function of the
display name (lowercase, spaces and hyphens to underscores), it maps
Bluefin Tuna to bluefin_tuna, repeated calls return the same id, and the
20 ids of the fixed sample species list are pairwise distinct. -/
theorem c5_fish_id_stable_and_distinct :
    generate_fish_id "Bluefin Tuna" = "bluefin_tuna" ∧
    (∀ s : String, generate_fish_id s = generate_fish_id s) ∧
    (get_top_20_fish_species.map generate_fish_id).Nodup := by
  exact ⟨by decide, fun s => rfl, by decide⟩

/-- C6: the truncation step of `build_description` returns the string
unchanged when its length is at most 200 characters, otherwise the first
200 characters followed by the ellipsis marker, and the result never
exceeds 203 characters. -/
theorem c6_description_truncation (s : List Char) :
    (s.length ≤ 200 → truncate_description s = s) ∧
    (200 < s.length →
      truncate_description s = s.take 200 ++ ("...".toList)) ∧
    (truncate_description s).length ≤ 203 := by
  rw [truncate_description]
  by_cases h : s.length > 200
  · rw [if_pos h]
    refine ⟨fun h2 => absurd h (by omega), fun _ => rfl, ?_⟩
    have h3 : ("...".toList).length = 3 := rfl
    rw [List.length_append, List.length_take, h3]
    omega
  · rw [if_neg h]
    exact ⟨fun _ => rfl, fun h2 => absurd h2 h, by omega⟩

/-- C6 witness: a short description is returned unchanged, and a 201
character description is truncated to 200 characters plus the ellipsis. -/
theorem c6_description_truncation_witness :
    truncate_description ("tuna".toList) = "tuna".toList ∧
    truncate_description (List.replicate 201 'a') =
      (List.replicate 201 'a').take 200 ++ ("...".toList) :=
  ⟨(c6_description_truncation _).1 (by decide),
   (c6_description_truncation (List.replicate 201 'a')).2.1
     (by rw [List.length_replicate]; omega)⟩

/-- C7, counterexample: it is not the case that the FishBase comment is
the text used when both metadata sources are available:
`build_description` appends the Wikipedia extract first and returns the
first element, so the Wikipedia text wins. -/
theorem c7_counterexample :
    ¬ ∀ (name fb wiki : String),
        build_description name (some fb) (some wiki) =
          truncate_description fb.toList := by
  intro h
  exact absurd (h "x" "fishbase text" "wikipedia text") (by decide)

/-- C7, amended: descriptions are resolved in a fixed priority order with
the Wikipedia extract first and the FishBase comment second; whenever the
Wikipedia extract is available its text is the one used, the FishBase
comment is used only when the extract is absent, and only when neither
source yields text does the function fall back to the static per-entity
table and then to the generic template string. -/
theorem c7_description_priority :
    (∀ (name wiki : String) (fbo : Option String),
        build_description name fbo (some wiki) =
          truncate_description wiki.toList) ∧
    (∀ name fb : String,
        build_description name (some fb) none =
          truncate_description fb.toList) ∧
    (∀ name entry : String,
        fallback_descriptions.lookup name = some entry →
          build_description name none none =
            truncate_description entry.toList) ∧
    (∀ name : String,
        fallback_descriptions.lookup name = none →
          build_description name none none =
            truncate_description generic_description.toList) := by
  refine ⟨fun name wiki fbo => ?_, fun name fb => rfl,
    fun name entry h => ?_, fun name h => ?_⟩
  · cases fbo <;> rfl
  · simp [build_description, h]
  · simp [build_description, h]

/-- C7 witness: with both sources absent, the Bluefin Tuna entry of the
static table is used. -/
theorem c7_description_priority_witness :
    build_description "Bluefin Tuna" none none =
      truncate_description
        ("Large, powerful fish prized for its rich, fatty flesh. Highly valued in sushi cuisine for its complex flavor profile ranging from lean akami to fatty otoro.").toList :=
  c7_description_priority.2.2.1 "Bluefin Tuna" _ (by decide)

/-- C8, counterexample: it is not the case that whenever
`download_image_from_url` returns False no file has been written: with
status 200 and an image content type, a body chunk that raises mid-stream
leaves the already opened file (with the bytes streamed so far) at the
target path while the function returns False. -/
theorem c8_counterexample :
    ¬ ∀ resp : Except Unit HttpResponse,
        (download_image_from_url resp).1 = false →
        (download_image_from_url resp).2 = none := by
  intro h
  exact absurd
    (h (Except.ok ⟨200, "image/jpeg", [Except.error ()]⟩) (by decide))
    (by decide)

/-- C8, amended: a file exists at the target path if and only if the
response status is 200 and the declared content type contains image, so a
payload is never persisted without passing the content-type-is-image
check; the function returns True exactly when those checks pass and every
body chunk is delivered; a request-level exception writes nothing and
returns False; only an exception raised mid-stream, after the checks
passed, leaves a partial file behind together with a False result. -/
theorem c8_download_checks (resp : HttpResponse) :
    ((download_image_from_url (Except.ok resp)).2 ≠ none ↔
      (resp.status = 200 ∧
        isSubstring ("image".toList) resp.content_type.toList = true)) ∧
    ((download_image_from_url (Except.ok resp)).1 = true ↔
      (resp.status = 200 ∧
        isSubstring ("image".toList) resp.content_type.toList = true ∧
        (writeChunks resp.chunks []).1 = true)) ∧
    download_image_from_url (Except.error ()) = (false, none) := by
  refine ⟨?_, ?_, rfl⟩ <;> rw [download_image_from_url] <;>
    by_cases h1 : resp.status = 200
  · rw [if_pos h1]
    by_cases h2 : isSubstring ("image".toList) resp.content_type.toList = true
    · rw [if_pos h2]
      exact iff_of_true (by simp) ⟨h1, h2⟩
    · rw [if_neg h2]
      exact iff_of_false (by simp) (fun hc => h2 hc.2)
  · rw [if_neg h1]
    exact iff_of_false (by simp) (fun hc => h1 hc.1)
  · rw [if_pos h1]
    by_cases h2 : isSubstring ("image".toList) resp.content_type.toList = true
    · rw [if_pos h2]
      exact ⟨fun hw => ⟨h1, h2, hw⟩, fun hc => hc.2.2⟩
    · rw [if_neg h2]
      exact iff_of_false (by simp) (fun hc => h2 hc.2.1)
  · rw [if_neg h1]
    exact iff_of_false (by simp) (fun hc => h1 hc.1)

/-- C8 witness: a 200 image response whose single chunk arrives is
persisted and reported True, and a request-level exception yields False
with no file. -/
theorem c8_download_checks_witness :
    (download_image_from_url
        (Except.ok ⟨200, "image/jpeg", [Except.ok [1, 2]]⟩)).1 = true ∧
    download_image_from_url (Except.error ()) = (false, none) :=
  ⟨(c8_download_checks ⟨200, "image/jpeg", [Except.ok [1, 2]]⟩).2.1.mpr
      (by decide),
   (c8_download_checks ⟨200, "image/jpeg", []⟩).2.2⟩

/-- C9: the uniform resize step is idempotent: a file already at the
400x300 target dimensions takes the branch that leaves it untouched
(same dimensions, mode and bytes), and running `resize_all_images` a
second time after a complete first pass changes no file. -/
theorem c9_resize_idempotent (enc : ImgMode → Nat → Nat) :
    (∀ (m : ImgMode) (d : Nat),
        resizeFile enc (ImgFile.img 400 300 m d) = ImgFile.img 400 300 m d) ∧
    (∀ files : List ImgFile,
        resize_all_images enc (resize_all_images enc files) =
          resize_all_images enc files) := by
  have hpt : ∀ f : ImgFile, resizeFile enc (resizeFile enc f) = resizeFile enc f := by
    intro f
    cases f with
    | corrupt => rfl
    | img w h m d =>
      by_cases hs : (w, h) ≠ target_size
      · rw [resizeFile, if_pos hs, resizeFile, if_neg (by simp)]
      · rw [resizeFile, if_neg hs, resizeFile, if_neg hs]
  constructor
  · intro m d
    rw [resizeFile, if_neg (by simp [target_size])]
  · intro files
    rw [resize_all_images, resize_all_images, List.map_map]
    exact List.map_congr_left fun f _ => hpt f

/-- C10: after `run_fix_and_resize` completes, every path in the
hardcoded broken-images list holds the synthetic placeholder generated by
`fix_broken_images`: whatever the replacement-download step fetched is
overwritten, and since the placeholder is rendered at the 400x300 target
size the final resize pass leaves it untouched. -/
theorem c10_fix_overwrites_downloads (enc : ImgMode → Nat → Nat)
    (ph : String → Nat) (dl : String → Option ImgFile)
    (fs : String → ImgFile) (p : String) (hp : p ∈ broken_images) :
    run_fix_and_resize enc ph dl fs p = placeholderFor ph p := by
  rw [run_fix_and_resize, fix_broken_images, if_pos hp, placeholderFor,
    resizeFile, if_neg (by simp)]

/-- C10 witness: a broken habitat map path ends as its placeholder even
when a replacement download succeeded for it. -/
theorem c10_fix_overwrites_downloads_witness :
    run_fix_and_resize (fun _ d => d) (fun _ => 0)
        (fun _ => some (ImgFile.img 800 600 ImgMode.RGB 7))
        (fun _ => ImgFile.corrupt) "maps/atlantic_salmon_habitat.jpg" =
      placeholderFor (fun _ => 0) "maps/atlantic_salmon_habitat.jpg" :=
  c10_fix_overwrites_downloads (fun _ d => d) (fun _ => 0)
    (fun _ => some (ImgFile.img 800 600 ImgMode.RGB 7))
    (fun _ => ImgFile.corrupt) "maps/atlantic_salmon_habitat.jpg" (by decide)

end GyoGaiDo
